import Mathlib

/-
  Verification of the adaptive semantic flight-search engine:
  a shallow embedding of the Query Analyzer, Search Executor, Relevance
  Annotator (src/services/vector-db/main.py) and the Numerical Filter
  Stage (src/services/rag-service/main.py), with theorems checking the
  specification's claims against it.

  Modelling conventions:
  * Python floats are embedded as rationals, so the arithmetic in scores
    and filters is exact.
  * Python strings are handled through their character lists; case
    mapping models str.lower/str.upper on ASCII letters (all keyword
    tables and patterns in the source are ASCII).
  * All recursions are structural (with an explicit fuel argument equal
    to the list length where Python scans with an index), so every
    definition evaluates inside the kernel.
-/

namespace FlightRag

/-! ## ASCII character helpers (Python str.lower / str.upper on ASCII) -/

def isUpperAZ (c : Char) : Bool := decide (65 ≤ c.toNat ∧ c.toNat ≤ 90)

def isLowerAZ (c : Char) : Bool := decide (97 ≤ c.toNat ∧ c.toNat ≤ 122)

def isDigit09 (c : Char) : Bool := decide (48 ≤ c.toNat ∧ c.toNat ≤ 57)

def lowerChar (c : Char) : Char :=
  if isUpperAZ c then Char.ofNat (c.toNat + 32) else c

def upperChar (c : Char) : Char :=
  if isLowerAZ c then Char.ofNat (c.toNat - 32) else c

def lowerL (l : List Char) : List Char := l.map lowerChar

def upperL (l : List Char) : List Char := l.map upperChar

/-! ## List-of-char string primitives -/

/-- Prefix test on character lists. -/
def isPrefixL : List Char → List Char → Bool
  | [], _ => true
  | _ :: _, [] => false
  | a :: as, b :: bs => (a == b) && isPrefixL as bs

/-- Substring test, as Python's infix membership test on strings. -/
def isInfixL (needle : List Char) : List Char → Bool
  | [] => needle.isEmpty
  | c :: rest => isPrefixL needle (c :: rest) || isInfixL needle rest

/-- Python str.count: number of non-overlapping occurrences, scanning left
to right; the fuel argument bounds the recursion by the haystack length. -/
def countOccF (needle : List Char) : Nat → List Char → Nat
  | _, [] => 0
  | 0, _ :: _ => 0
  | fuel + 1, c :: rest =>
    if isPrefixL needle (c :: rest) then
      1 + countOccF needle fuel (List.drop (needle.length - 1) rest)
    else
      countOccF needle fuel rest

def countOcc (needle hay : List Char) : Nat := countOccF needle hay.length hay

/-- Python str.replace with the empty string as replacement: removes all
non-overlapping occurrences, scanning left to right. -/
def removeAllF (needle : List Char) : Nat → List Char → List Char
  | _, [] => []
  | 0, l => l
  | fuel + 1, c :: rest =>
    if !needle.isEmpty && isPrefixL needle (c :: rest) then
      removeAllF needle fuel (List.drop (needle.length - 1) rest)
    else
      c :: removeAllF needle fuel rest

def removeAll (needle hay : List Char) : List Char := removeAllF needle hay.length hay

/-- Characters treated as whitespace by Python str.split and str.strip
(ASCII subset). -/
def isPySpace (c : Char) : Bool :=
  c == ' ' || c == '\t' || c == '\n' || c == '\r' || c.toNat == 11 || c.toNat == 12

/-- Python str.strip with no argument. -/
def trimL (l : List Char) : List Char :=
  ((l.dropWhile isPySpace).reverse.dropWhile isPySpace).reverse

/-- Split at every character satisfying the predicate, keeping empty
pieces, as Python str.split with an explicit one-character separator. -/
def splitOnPred (p : Char → Bool) : List Char → List (List Char)
  | [] => [[]]
  | c :: rest =>
    let r := splitOnPred p rest
    if p c then
      [] :: r
    else
      match r with
      | [] => [[c]]
      | h :: t => (c :: h) :: t

/-- Python str.split with no argument: split on whitespace runs and drop
empty pieces. -/
def pyWords (l : List Char) : List (List Char) :=
  (splitOnPred isPySpace l).filter (fun w => !w.isEmpty)

/-- Substring test between strings: the needle occurs inside the haystack. -/
def containsStrL (hay : List Char) (needle : String) : Bool :=
  isInfixL needle.toList hay

/-! ## Python int() on a string (sign, surrounding whitespace, digit
groups separated by single underscores). -/

def digitVal (c : Char) : Nat := c.toNat - 48

def pyIntDigits : Nat → List Char → Option Nat
  | acc, [] => some acc
  | _, ['_'] => none
  | acc, '_' :: c :: rest =>
    if isDigit09 c then pyIntDigits (acc * 10 + digitVal c) rest else none
  | acc, c :: rest =>
    if isDigit09 c then pyIntDigits (acc * 10 + digitVal c) rest else none

def pyIntNat : List Char → Option Nat
  | [] => none
  | c :: rest => if isDigit09 c then pyIntDigits (digitVal c) rest else none

/-- Python int(str): raises (here: none) unless the trimmed string is an
optionally signed decimal numeral. -/
def pyInt (s : List Char) : Option Int :=
  match trimL s with
  | '+' :: rest => (pyIntNat rest).map Int.ofNat
  | '-' :: rest => (pyIntNat rest).map (fun n => -(n : Int))
  | l => (pyIntNat l).map Int.ofNat

/-! ## Query Analyzer (QueryAnalyzer in src/services/vector-db/main.py) -/

inductive QueryComplexity where
  | SIMPLE
  | MODERATE
  | COMPLEX
deriving DecidableEq, Repr

inductive SearchStrategy where
  | EXACT
  | SIMILARITY
  | HYBRID
deriving DecidableEq, Repr

/-- Containment of any of the listed keywords in the (lowercased) query. -/
def anyWordL (ql : List Char) (ws : List String) : Bool :=
  ws.any (fun w => containsStrL ql w)

def hasLocationSignal (ql : List Char) : Bool :=
  anyWordL ql ["from", "to", "between", "via"]

def hasTemporalSignal (ql : List Char) : Bool :=
  anyWordL ql ["tomorrow", "today", "weekend", "morning", "evening", "date"]

def hasPriceSignal (ql : List Char) : Bool :=
  anyWordL ql ["cheap", "under", "budget", "expensive", "price", "$"]

def hasAirlineSignal (ql : List Char) : Bool :=
  anyWordL ql ["airline", "united", "american", "delta", "southwest"]

def hasClassSignal (ql : List Char) : Bool :=
  anyWordL ql ["business", "first", "economy", "class"]

def hasComparisonSignal (ql : List Char) : Bool :=
  anyWordL ql ["compare", "vs", "versus", "better", "best", "worst"]

def hasMultiDestSignal (ql : List Char) : Bool :=
  decide (0 < countOcc " or ".toList ql) || decide (1 < countOcc " and ".toList ql)

/-- The criteria_count accumulated by analyze_query_complexity. -/
def complexityScore (query : String) : Nat :=
  (if hasLocationSignal (lowerL query.toList) then 1 else 0)
  + (if hasTemporalSignal (lowerL query.toList) then 1 else 0)
  + (if hasPriceSignal (lowerL query.toList) then 1 else 0)
  + (if hasAirlineSignal (lowerL query.toList) then 1 else 0)
  + (if hasClassSignal (lowerL query.toList) then 1 else 0)
  + (if hasComparisonSignal (lowerL query.toList) then 2 else 0)
  + (if hasMultiDestSignal (lowerL query.toList) then 2 else 0)

def analyze_query_complexity (query : String) : QueryComplexity :=
  if complexityScore query ≤ 1 then QueryComplexity.SIMPLE
  else if complexityScore query ≤ 3 then QueryComplexity.MODERATE
  else QueryComplexity.COMPLEX

def determine_result_count (complexity : QueryComplexity) (total_flights : Nat) : Nat :=
  match complexity with
  | QueryComplexity.SIMPLE => min 3 (max 1 (total_flights / 50))
  | QueryComplexity.MODERATE => min 8 (max 3 (total_flights / 25))
  | QueryComplexity.COMPLEX => min 15 (max 5 (total_flights / 15))

/-- Whether a window of the list matches the start of the regular
expression pattern of two capital letters followed by a digit. -/
def startsLLD : List Char → Bool
  | a :: b :: c :: _ => isUpperAZ a && isUpperAZ b && isDigit09 c
  | _ => false

/-- Regex search for two capital letters followed by one or more digits:
some position of the list starts such a window. -/
def hasLLD : List Char → Bool
  | [] => false
  | c :: rest => startsLLD (c :: rest) || hasLLD rest

/-- The airline-code test of determine_search_strategy, applied to the
uppercased query. -/
def hasAirlineCode (query : String) : Bool :=
  hasLLD (upperL query.toList)

def determine_search_strategy (query : String) (complexity : QueryComplexity) :
    SearchStrategy :=
  if hasAirlineCode query then SearchStrategy.EXACT
  else if complexity = QueryComplexity.COMPLEX then SearchStrategy.HYBRID
  else SearchStrategy.SIMILARITY

/-! ## Data model

Flight metadata dictionaries are embedded as a structure of optional
fields (absent key = none); the search path reads exactly these keys. -/

structure FlightMeta where
  airline : Option String := none
  departure_city : Option String := none
  arrival_city : Option String := none
  price : Option ℚ := none
  available_seats : Option Int := none
  departure_time : Option String := none
  arrival_time : Option String := none
deriving DecidableEq, Repr

/-- One row of a Document Store nearest-neighbor reply. -/
structure Candidate where
  id : String
  document : String
  metadata : FlightMeta
  distance : ℚ
deriving DecidableEq, Repr

structure SearchResult where
  id : String
  document : String
  metadata : FlightMeta
  distance : ℚ
  similarity_score : ℚ
  match_type : String
  relevance_factors : List String
deriving DecidableEq, Repr

/-- The search request body; the strategy field exists on the request
model but search_flights recomputes the strategy and never reads it,
exactly as the source endpoint does. -/
structure SearchQueryIn where
  query : String
  n_results : Option Nat := none
  strategy : Option SearchStrategy := none
  max_distance : Option ℚ := none

/-- The Document Store query primitive: query text and candidate width
in, either a failure (StoreUnavailable) or an ordered candidate list out. -/
def Store := String → Nat → Except String (List Candidate)

/-! ## Search Executor (the three execution paths) -/

def candToSR (mt : String) (c : Candidate) : SearchResult :=
  { id := c.id
    document := c.document
    metadata := c.metadata
    distance := c.distance
    similarity_score := 1 - c.distance
    match_type := mt
    relevance_factors := [] }

def exact_search (store : Store) (query : String) (n_results : Nat) :
    Except String (List SearchResult) :=
  (store query (min (n_results * 2) 20)).map
    (fun cands => ((cands.map (candToSR "exact")).take n_results))

def similarity_search (store : Store) (query : String) (n_results : Nat)
    (max_distance : Option ℚ) : Except String (List SearchResult) :=
  (store query n_results).map
    (fun cands =>
      (cands.filter
        (fun c =>
          match max_distance with
          | some md => decide (c.distance ≤ md)
          | none => true)).map (candToSR "semantic"))

/-- Hybrid scoring of one candidate (calculate_hybrid_score in the
source). -/
def calculate_hybrid_score (query : String) (r : SearchResult) : ℚ :=
  let base_similarity : ℚ := 1 - r.distance
  let query_words := (pyWords (lowerL query.toList)).dedup
  let doc_words := (pyWords (lowerL r.document.toList)).dedup
  let keyword_overlap : ℚ :=
    ((query_words.filter (fun w => doc_words.contains w)).length : ℚ)
      / ((max query_words.length 1 : Nat) : ℚ)
  let metadata_bonus : ℚ :=
    match r.metadata.airline with
    | some a => if containsStrL (lowerL query.toList) (String.mk (lowerL a.toList)) then 0.1 else 0
    | none => 0
  min (base_similarity * 0.7 + keyword_overlap * 0.2 + metadata_bonus) 1

/-- Stable insertion (descending by similarity_score): a later element is
placed after any earlier element whose score is not smaller, which is the
order Python's stable sort with reverse=True produces. -/
def insertDescBySim (x : SearchResult) : List SearchResult → List SearchResult
  | [] => [x]
  | y :: ys =>
    if x.similarity_score ≥ y.similarity_score then x :: y :: ys
    else y :: insertDescBySim x ys

def sortDescBySim (l : List SearchResult) : List SearchResult :=
  l.foldr insertDescBySim []

def hybrid_search (store : Store) (query : String) (n_results : Nat) :
    Except String (List SearchResult) :=
  (store query (min (n_results * 3) 30)).map
    (fun cands =>
      let srs := cands.map (candToSR "hybrid")
      let scored := srs.map
        (fun r => { r with similarity_score := calculate_hybrid_score query r })
      (sortDescBySim scored).take n_results)

/-! ## Relevance Annotator (analyze_match_relevance in the source) -/

/-- Python str() rendering of an optional metadata value interpolated
into an f-string (absent key prints as None). -/
def optStr : Option String → String
  | some s => s
  | none => "None"

def relevanceFactors (query : String) (r : SearchResult) : List String :=
  let ql := lowerL query.toList
  (if containsStrL ql (String.mk (lowerL (r.metadata.airline.getD "").toList)) then
    ["Airline match: " ++ optStr r.metadata.airline]
  else [])
  ++ (if containsStrL ql (String.mk (lowerL (r.metadata.departure_city.getD "").toList)) then
    ["Origin match: " ++ optStr r.metadata.departure_city]
  else [])
  ++ (if containsStrL ql (String.mk (lowerL (r.metadata.arrival_city.getD "").toList)) then
    ["Destination match: " ++ optStr r.metadata.arrival_city]
  else [])
  ++ (if anyWordL ql ["cheap", "budget", "under"] then
    (if r.metadata.price.getD 0 < 500 then
      ["Budget-friendly: $" ++ toString (r.metadata.price.getD 0)]
    else [])
  else [])
  ++ (if r.similarity_score > 0.8 then ["High semantic similarity"]
      else if r.similarity_score > 0.6 then ["Good semantic match"]
      else [])

/-- The final match-type resolution at the end of analyze_match_relevance. -/
def matchTypeFromFactors (factors : List String) : String :=
  if factors.length > 2 then "multi-factor"
  else if factors.any (fun f => containsStrL f.toList "match:") then "exact"
  else "semantic"

def analyze_match_relevance (query : String) (r : SearchResult) :
    String × List String :=
  (matchTypeFromFactors (relevanceFactors query r), relevanceFactors query r)

/-! ## The search endpoint (search_flights) -/

/-- The per-result enhancement loop body of search_flights: the final
similarity_score is recomputed from the distance, and the match type and
relevance factors come from analyze_match_relevance applied to the
path-produced result (whose similarity_score on the hybrid path is still
the hybrid score at this point). -/
def finalizeResult (query : String) (r : SearchResult) : SearchResult :=
  { r with
    similarity_score := 1 - r.distance
    match_type := (analyze_match_relevance query r).1
    relevance_factors := (analyze_match_relevance query r).2 }

/-- Dispatch on the chosen strategy. -/
def routeSearch (store : Store) (q : SearchQueryIn) (strategy : SearchStrategy)
    (n_results : Nat) : Except String (List SearchResult) :=
  match strategy with
  | SearchStrategy.EXACT => exact_search store q.query n_results
  | SearchStrategy.HYBRID => hybrid_search store q.query n_results
  | SearchStrategy.SIMILARITY => similarity_search store q.query n_results q.max_distance

/-- The requested or dynamically determined result count. -/
def effectiveN (q : SearchQueryIn) (total_flights : Nat) : Nat :=
  match q.n_results with
  | some k => k
  | none => determine_result_count (analyze_query_complexity q.query) total_flights

def search_flights (store : Store) (total_flights : Nat) (q : SearchQueryIn) :
    Except String (List SearchResult) :=
  (routeSearch store q
      (determine_search_strategy q.query (analyze_query_complexity q.query))
      (effectiveN q total_flights)).map
    (List.map (finalizeResult q.query))

/-! ## Numerical Filter Stage (src/services/rag-service/main.py) -/

structure NumericalFilters where
  max_price : Option ℚ := none
  min_price : Option ℚ := none
  max_duration_hours : Option ℚ := none
  min_available_seats : Option Int := none
  departure_after : Option String := none
  departure_before : Option String := none
  arrival_after : Option String := none
  arrival_before : Option String := none
deriving DecidableEq, Repr

/-- Python truthiness of an optional string field (None and the empty
string are falsy). -/
def truthyS : Option String → Bool
  | none => false
  | some s => !(s == "")

/-- parse_time_string: extract hour and minute from flexible time
strings, converting a 12-hour AM/PM reading to 24-hour form; none models
the (None, None) return. -/
def parse_time_string (time_str : String) : Option (Int × Int) :=
  let t := trimL time_str.toList
  let up := upperL t
  let is_pm := isInfixL "PM".toList up
  let is_am := isInfixL "AM".toList up
  let t2 := trimL (removeAll "pm".toList (removeAll "am".toList
    (removeAll "PM".toList (removeAll "AM".toList t))))
  match splitOnPred (fun c => c == ':') t2 with
  | p0 :: p1 :: _ =>
    match pyInt p0, pyInt p1 with
    | some hour, some minute =>
      if is_pm && !(hour == 12) then some (hour + 12, minute)
      else if is_am && (hour == 12) then some (0, minute)
      else some (hour, minute)
    | _, _ => none
  | _ => none

/-- passes_time_filter: check a parsed flight time against optional
window bounds; every unparsable time (flight time or bound) makes the
corresponding check pass. -/
def passes_time_filter (flight_time : String) (after_time before_time : Option String) :
    Bool :=
  match parse_time_string flight_time with
  | none => true
  | some (fh, fm) =>
    let flight_minutes := fh * 60 + fm
    (if truthyS after_time then
      match parse_time_string (after_time.getD "") with
      | some (ah, am) => decide (ah * 60 + am ≤ flight_minutes)
      | none => true
    else true)
    && (if truthyS before_time then
      match parse_time_string (before_time.getD "") with
      | some (bh, bm) => decide (flight_minutes ≤ bh * 60 + bm)
      | none => true
    else true)

/-- calculate_flight_duration: duration in hours, adding a day when the
arrival minutes precede the departure minutes; none when either argument
is absent or unparsable. -/
def calculate_flight_duration (departure_time arrival_time : Option String) :
    Option ℚ :=
  match departure_time, arrival_time with
  | some d, some a =>
    match parse_time_string d, parse_time_string a with
    | some (dh, dm), some (ah, am) =>
      let dep_minutes := dh * 60 + dm
      let arr_minutes := ah * 60 + am
      let arr_minutes2 := if arr_minutes < dep_minutes then arr_minutes + 1440 else arr_minutes
      some (((arr_minutes2 - dep_minutes : ℤ) : ℚ) / 60)
    | _, _ => none
  | _, _ => none

/-- Python truthiness of a flight dict restricted to the modelled keys
(the loop skips empty dicts). -/
def flightTruthy (f : FlightMeta) : Bool :=
  f.airline.isSome || f.departure_city.isSome || f.arrival_city.isSome
  || f.price.isSome || f.available_seats.isSome || f.departure_time.isSome
  || f.arrival_time.isSome

/-- The per-flight body of the apply_numerical_filters loop: the flight
is kept exactly when no specified filter rejects it. -/
def passes_numerical_filters (filters : NumericalFilters) (f : FlightMeta) : Bool :=
  flightTruthy f
  && (match filters.max_price with
      | some mp => (match f.price with
        | some p => decide (p ≤ mp)
        | none => false)
      | none => true)
  && (match filters.min_price with
      | some mp => (match f.price with
        | some p => decide (mp ≤ p)
        | none => false)
      | none => true)
  && (match filters.min_available_seats with
      | some ms => (match f.available_seats with
        | some s => decide (ms ≤ s)
        | none => false)
      | none => true)
  && (if truthyS filters.departure_after || truthyS filters.departure_before then
      (match f.departure_time with
       | some dt =>
         if !(dt == "") then passes_time_filter dt filters.departure_after filters.departure_before
         else true
       | none => true)
    else true)
  && (if truthyS filters.arrival_after || truthyS filters.arrival_before then
      (match f.arrival_time with
       | some at' =>
         if !(at' == "") then passes_time_filter at' filters.arrival_after filters.arrival_before
         else true
       | none => true)
    else true)
  && (match filters.max_duration_hours with
      | some md => (match calculate_flight_duration f.departure_time f.arrival_time with
        | some d => decide (d ≤ md)
        | none => true)
      | none => true)

def apply_numerical_filters (flights : List FlightMeta) (filters : NumericalFilters) :
    List FlightMeta :=
  flights.filter (fun f => passes_numerical_filters filters f)

/-! ## Claim-side definitions -/

/-- Number of non-comparison signal categories (location, temporal,
price, airline, class, multiple conjunction/disjunction markers) present
in a query, used to state the spec's compound-query property. -/
def otherSignalCategoryCount (query : String) : Nat :=
  (if hasLocationSignal (lowerL query.toList) then 1 else 0)
  + (if hasTemporalSignal (lowerL query.toList) then 1 else 0)
  + (if hasPriceSignal (lowerL query.toList) then 1 else 0)
  + (if hasAirlineSignal (lowerL query.toList) then 1 else 0)
  + (if hasClassSignal (lowerL query.toList) then 1 else 0)
  + (if hasMultiDestSignal (lowerL query.toList) then 1 else 0)

/-- Keyword overlap ratio exactly as the specification words it:
cardinality of the intersection of the lowercased whitespace-split word
sets divided by the number of query words, and 0 when the query has no
words. -/
def spec_keyword_overlap (query document : String) : ℚ :=
  let query_words := (pyWords (lowerL query.toList)).dedup
  let doc_words := (pyWords (lowerL document.toList)).dedup
  if query_words.length = 0 then 0
  else ((query_words.filter (fun w => doc_words.contains w)).length : ℚ)
    / (query_words.length : ℚ)

/-- Metadata bonus exactly as the specification words it: 0.1 when the
record's lowercased airline name occurs in the lowercased query, else 0. -/
def spec_metadata_bonus (query : String) (m : FlightMeta) : ℚ :=
  match m.airline with
  | some a => if containsStrL (lowerL query.toList) (String.mk (lowerL a.toList)) then 0.1 else 0
  | none => 0

/-! ## Concrete fixtures used by witness theorems -/

def metaC3 : FlightMeta :=
  { airline := some "Delta", departure_city := some "Boston", arrival_city := some "Miami"
    price := some 300, available_seats := some 5
    departure_time := some "10:00", arrival_time := some "12:00" }

def storeC3 : Store := fun _ _ =>
  Except.ok [{ id := "f1", document := "doc", metadata := metaC3, distance := 0 }]

def qC3 : SearchQueryIn := { query := "hello", n_results := some 1 }

def resC3 : SearchResult :=
  { id := "f1", document := "doc", metadata := metaC3, distance := 0
    similarity_score := 1, match_type := "semantic"
    relevance_factors := ["High semantic similarity"] }

def metaC10 : FlightMeta :=
  { airline := some "Delta", departure_city := some "Boston", arrival_city := some "Miami"
    price := some 320, available_seats := some 7
    departure_time := some "09:00", arrival_time := some "11:00" }

def storeC10 : Store := fun _ _ =>
  Except.ok [{ id := "f2", document := "doc2", metadata := metaC10, distance := 0 }]

def qC10 : SearchQueryIn := { query := "delta from boston to miami", n_results := some 1 }

def resC10 : SearchResult :=
  { id := "f2", document := "doc2", metadata := metaC10, distance := 0
    similarity_score := 1, match_type := "multi-factor"
    relevance_factors := ["Airline match: Delta", "Origin match: Boston",
      "Destination match: Miami", "High semantic similarity"] }

/-! ## Helper lemmas -/

theorem upperChar_of_isUpperAZ {c : Char} (h : isUpperAZ c = true) : upperChar c = c := by
  have h2 : 65 ≤ c.toNat ∧ c.toNat ≤ 90 := of_decide_eq_true h
  have hl : ¬ (isLowerAZ c = true) := by
    simp only [isLowerAZ, decide_eq_true_eq]
    omega
  unfold upperChar
  rw [if_neg hl]

theorem upperChar_of_isDigit09 {c : Char} (h : isDigit09 c = true) : upperChar c = c := by
  have h2 : 48 ≤ c.toNat ∧ c.toNat ≤ 57 := of_decide_eq_true h
  have hl : ¬ (isLowerAZ c = true) := by
    simp only [isLowerAZ, decide_eq_true_eq]
    omega
  unfold upperChar
  rw [if_neg hl]

theorem hasLLD_append (l l' : List Char) (h : hasLLD l' = true) :
    hasLLD (l ++ l') = true := by
  induction l with
  | nil => simpa using h
  | cons x xs ih => simp [hasLLD, ih]

theorem ite_one_le_ite_two (b : Bool) :
    (if b then 1 else 0) ≤ (if b then 2 else 0 : Nat) := by
  cases b <;> simp

theorem complexityScore_ge (query : String)
    (hc : hasComparisonSignal (lowerL query.toList) = true) :
    otherSignalCategoryCount query + 2 ≤ complexityScore query := by
  unfold complexityScore otherSignalCategoryCount
  rw [hc]
  have h7 := ite_one_le_ite_two (hasMultiDestSignal (lowerL query.toList))
  simp only [if_true]
  omega

/-! ## Claim theorems -/

/-- C2: any query containing two uppercase letters immediately followed
by a digit resolves to the EXACT strategy, whatever the complexity tier:
the airline-code rule of determine_search_strategy is checked first and
uppercasing the query leaves such a window intact. -/
theorem C2_airline_code_exact (query : String) (l₁ l₂ : List Char) (a b c : Char)
    (hq : query.toList = l₁ ++ a :: b :: c :: l₂)
    (ha : isUpperAZ a = true) (hb : isUpperAZ b = true) (hc : isDigit09 c = true)
    (complexity : QueryComplexity) :
    determine_search_strategy query complexity = SearchStrategy.EXACT := by
  have hcode : hasAirlineCode query = true := by
    unfold hasAirlineCode upperL
    rw [hq, List.map_append, List.map_cons, List.map_cons, List.map_cons,
      upperChar_of_isUpperAZ ha, upperChar_of_isUpperAZ hb, upperChar_of_isDigit09 hc]
    apply hasLLD_append
    simp [hasLLD, startsLLD, ha, hb, hc]
  unfold determine_search_strategy
  rw [if_pos hcode]

/-- C2 witness: the bare flight-code query AA123 resolves to EXACT. -/
theorem C2_witness :
    determine_search_strategy "AA123" QueryComplexity.SIMPLE = SearchStrategy.EXACT :=
  C2_airline_code_exact "AA123" [] "23".toList 'A' 'A' '1' rfl
    (by decide) (by decide) (by decide) QueryComplexity.SIMPLE

/-- C1 counterexample: the query below contains the comparison word
compare together with two other signal categories (location and
temporal), is classified COMPLEX, yet strategy resolution yields EXACT,
not HYBRID, because the airline-code rule fires first on the token AA123. -/
theorem C1_counterexample :
    containsStrL (lowerL ("compare AA123 from boston tomorrow").toList) "compare" = true
    ∧ 2 ≤ otherSignalCategoryCount "compare AA123 from boston tomorrow"
    ∧ analyze_query_complexity "compare AA123 from boston tomorrow" = QueryComplexity.COMPLEX
    ∧ determine_search_strategy "compare AA123 from boston tomorrow"
        (analyze_query_complexity "compare AA123 from boston tomorrow") = SearchStrategy.EXACT
    ∧ SearchStrategy.EXACT ≠ SearchStrategy.HYBRID :=
  ⟨by decide, by decide, by decide, by decide, by decide⟩

/-- C1 (amended): a query containing a comparison word (compare or vs)
together with at least two other signal categories is always classified
COMPLEX, and resolves to the HYBRID strategy provided it contains no
airline-code-like token (the earlier EXACT rule otherwise intercepts it). -/
theorem C1_complex_and_hybrid (query : String)
    (hcmp : containsStrL (lowerL query.toList) "compare" = true
      ∨ containsStrL (lowerL query.toList) "vs" = true)
    (hsig : 2 ≤ otherSignalCategoryCount query) :
    analyze_query_complexity query = QueryComplexity.COMPLEX
    ∧ (hasAirlineCode query = false →
      determine_search_strategy query (analyze_query_complexity query)
        = SearchStrategy.HYBRID) := by
  have hc : hasComparisonSignal (lowerL query.toList) = true := by
    unfold hasComparisonSignal anyWordL
    rcases hcmp with h | h
    · exact List.any_eq_true.mpr ⟨"compare", by simp, h⟩
    · exact List.any_eq_true.mpr ⟨"vs", by simp, h⟩
  have h4 : 4 ≤ complexityScore query := by
    have := complexityScore_ge query hc
    omega
  have hcomplex : analyze_query_complexity query = QueryComplexity.COMPLEX := by
    unfold analyze_query_complexity
    rw [if_neg (by omega), if_neg (by omega)]
  refine ⟨hcomplex, fun hcode => ?_⟩
  unfold determine_search_strategy
  rw [if_neg (by simp [hcode]), hcomplex, if_pos rfl]

/-- C1 witness: a comparison query with location and temporal signals and
no flight code is COMPLEX and resolves to HYBRID. -/
theorem C1_witness :
    analyze_query_complexity "compare flights from boston tomorrow" = QueryComplexity.COMPLEX
    ∧ determine_search_strategy "compare flights from boston tomorrow"
        (analyze_query_complexity "compare flights from boston tomorrow")
      = SearchStrategy.HYBRID :=
  ⟨(C1_complex_and_hybrid "compare flights from boston tomorrow"
      (Or.inl (by decide)) (by decide)).1,
   (C1_complex_and_hybrid "compare flights from boston tomorrow"
      (Or.inl (by decide)) (by decide)).2 (by decide)⟩

/-- C5: dynamic result sizing is the clamp of total // divisor to the
tier's bounds (written both as min-of-max, as the source computes it, and
as max-of-min, the usual clamp form), and it takes the four spot values
the specification lists. -/
theorem C5_result_count_clamp (total : Nat) :
    determine_result_count QueryComplexity.SIMPLE total = min 3 (max 1 (total / 50))
    ∧ determine_result_count QueryComplexity.SIMPLE total = max 1 (min 3 (total / 50))
    ∧ determine_result_count QueryComplexity.MODERATE total = max 3 (min 8 (total / 25))
    ∧ determine_result_count QueryComplexity.COMPLEX total = max 5 (min 15 (total / 15))
    ∧ determine_result_count QueryComplexity.SIMPLE 500 = 3
    ∧ determine_result_count QueryComplexity.SIMPLE 10 = 1
    ∧ determine_result_count QueryComplexity.MODERATE 1000 = 8
    ∧ determine_result_count QueryComplexity.COMPLEX 30 = 5 := by
  refine ⟨rfl, ?_, ?_, ?_, by decide, by decide, by decide, by decide⟩ <;>
    (simp only [determine_result_count]; omega)

/-- C8: price filters fail closed: with a max_price (resp. min_price)
filter specified, a record passes exactly when its price field is present
and within the bound; in particular price 600 is excluded at max_price
500, and a record with no price field is excluded by any price filter. -/
theorem C8_price_fail_closed :
    (∀ (f : FlightMeta) (mp : ℚ),
      passes_numerical_filters { max_price := some mp } f = true
        ↔ ∃ p, f.price = some p ∧ p ≤ mp)
    ∧ (∀ (f : FlightMeta) (mp : ℚ),
      passes_numerical_filters { min_price := some mp } f = true
        ↔ ∃ p, f.price = some p ∧ mp ≤ p)
    ∧ apply_numerical_filters [{ price := some 600 }] { max_price := some 500 } = []
    ∧ apply_numerical_filters [{ airline := some "Delta" }] { max_price := some 500 } = [] := by
  refine ⟨?_, ?_, by decide, by decide⟩
  · intro f mp
    rcases hp : f.price with _ | p <;>
      simp [passes_numerical_filters, flightTruthy, truthyS, hp]
  · intro f mp
    rcases hp : f.price with _ | p <;>
      simp [passes_numerical_filters, flightTruthy, truthyS, hp]

/-- C4: the hybrid score of every candidate equals the clamped weighted
blend the specification gives, with the keyword overlap ratio and
metadata bonus as the specification defines them; consequently it never
exceeds 1. -/
theorem C4_hybrid_score_formula (query : String) (r : SearchResult) :
    calculate_hybrid_score query r
      = min (0.7 * (1 - r.distance) + 0.2 * spec_keyword_overlap query r.document
          + spec_metadata_bonus query r.metadata) 1
    ∧ calculate_hybrid_score query r ≤ 1 := by
  constructor
  · simp only [calculate_hybrid_score, spec_keyword_overlap, spec_metadata_bonus]
    congr 1
    by_cases h : ((pyWords (lowerL query.toList)).dedup).length = 0
    · have h0 : (pyWords (lowerL query.toList)).dedup = [] := List.length_eq_zero.mp h
      rw [h0]
      simp
      ring
    · rw [if_neg h]
      have hmax : (max ((pyWords (lowerL query.toList)).dedup).length 1)
          = ((pyWords (lowerL query.toList)).dedup).length := by omega
      rw [hmax]
      ring
  · exact min_le_right _ _

/-- C6: when both times parse to genuine minutes-since-midnight values,
the computed duration is the wraparound difference (arrival minus
departure, modulo a day) in hours, and a max_duration_hours filter keeps
the record exactly when that duration does not exceed the bound; when
either time fails to parse the duration filter is skipped and the record
is retained with respect to it. -/
theorem C6_duration_filter (f : FlightMeta) (dep arr : String) (md : ℚ)
    (hdep : f.departure_time = some dep) (harr : f.arrival_time = some arr) :
    (∀ dh dm ah am : Int,
      parse_time_string dep = some (dh, dm) → parse_time_string arr = some (ah, am) →
      0 ≤ dh * 60 + dm → dh * 60 + dm < 1440 → 0 ≤ ah * 60 + am → ah * 60 + am < 1440 →
      calculate_flight_duration (some dep) (some arr)
          = some ((((ah * 60 + am - (dh * 60 + dm)) % 1440 : ℤ) : ℚ) / 60)
        ∧ (passes_numerical_filters { max_duration_hours := some md } f = true
          ↔ ((((ah * 60 + am - (dh * 60 + dm)) % 1440 : ℤ) : ℚ) / 60) ≤ md))
    ∧ (parse_time_string dep = none ∨ parse_time_string arr = none →
      passes_numerical_filters { max_duration_hours := some md } f = true) := by
  constructor
  · intro dh dm ah am hd ha hd0 hd1 ha0 ha1
    have hz : (if ah * 60 + am < dh * 60 + dm then ah * 60 + am + 1440 else ah * 60 + am)
        - (dh * 60 + dm) = (ah * 60 + am - (dh * 60 + dm)) % 1440 := by
      by_cases hlt : ah * 60 + am < dh * 60 + dm
      · rw [if_pos hlt]; omega
      · rw [if_neg hlt]; omega
    have hdur : calculate_flight_duration (some dep) (some arr)
        = some ((((ah * 60 + am - (dh * 60 + dm)) % 1440 : ℤ) : ℚ) / 60) := by
      simp only [calculate_flight_duration, hd, ha]
      rw [hz]
    refine ⟨hdur, ?_⟩
    simp [passes_numerical_filters, flightTruthy, truthyS, hdep, harr, hdur]
  · intro hnone
    have hdur : calculate_flight_duration (some dep) (some arr) = none := by
      rcases hnone with h | h <;> simp [calculate_flight_duration, h]
    simp [passes_numerical_filters, flightTruthy, truthyS, hdep, harr, hdur]

/-- C6 witness: a 10:00 departure and 12:30 arrival give the wraparound
duration of 2.5 hours and the max-duration filter compares against it. -/
theorem C6_witness :
    calculate_flight_duration (some "10:00") (some "12:30")
      = some ((((12 * 60 + 30 - (10 * 60 + 0)) % 1440 : ℤ) : ℚ) / 60)
    ∧ (passes_numerical_filters { max_duration_hours := some 3 }
        { departure_time := some "10:00", arrival_time := some "12:30" } = true
      ↔ ((((12 * 60 + 30 - (10 * 60 + 0)) % 1440 : ℤ) : ℚ) / 60) ≤ 3) :=
  (C6_duration_filter { departure_time := some "10:00", arrival_time := some "12:30" }
      "10:00" "12:30" 3 rfl rfl).1 10 0 12 30 (by decide) (by decide)
    (by decide) (by decide) (by decide) (by decide)

/-- C7: time filters fail open: with departure window filters specified,
a record whose departure_time is present but unparsable always passes
both the time check and the whole filter stage restricted to that window;
the same holds for the arrival window. -/
theorem C7_time_fail_open (f : FlightMeta) (dep : String) (aft bef : Option String)
    (hdep : f.departure_time = some dep)
    (hunp : parse_time_string dep = none) :
    passes_time_filter dep aft bef = true
    ∧ passes_numerical_filters { departure_after := aft, departure_before := bef } f = true
    ∧ (∀ arr, f.arrival_time = some arr → parse_time_string arr = none →
        passes_numerical_filters { arrival_after := aft, arrival_before := bef } f = true) := by
  have hp : ∀ (t : String), parse_time_string t = none →
      ∀ a b, passes_time_filter t a b = true := by
    intro t ht a b
    simp [passes_time_filter, ht]
  refine ⟨hp dep hunp aft bef, ?_, ?_⟩
  · simp [passes_numerical_filters, flightTruthy, truthyS, hdep, hp dep hunp]
  · intro arr harr hunp2
    simp [passes_numerical_filters, flightTruthy, truthyS, hdep, harr, hp arr hunp2]

/-- C7 witness: the unparsable departure time noon is not excluded by a
departure_after filter, nor the unparsable arrival time later by an
arrival_after filter. -/
theorem C7_witness :
    passes_time_filter "noon" (some "08:00") none = true
    ∧ passes_numerical_filters { departure_after := some "08:00" }
        { departure_time := some "noon", arrival_time := some "later" } = true
    ∧ passes_numerical_filters { arrival_after := some "08:00" }
        { departure_time := some "noon", arrival_time := some "later" } = true := by
  have h := C7_time_fail_open
    { departure_time := some "noon", arrival_time := some "later" }
    "noon" (some "08:00") none rfl (by decide)
  exact ⟨h.1, h.2.1, h.2.2 "later" rfl (by decide)⟩

/-- C9: with an empty store (its query primitive returns an empty
candidate list), each of the three execution paths and the whole search
endpoint return an empty result list and no error. -/
theorem C9_empty_store (store : Store) (hstore : ∀ s k, store s k = Except.ok [])
    (query : String) (n : Nat) (md : Option ℚ) (total_flights : Nat) (q : SearchQueryIn) :
    exact_search store query n = Except.ok []
    ∧ similarity_search store query n md = Except.ok []
    ∧ hybrid_search store query n = Except.ok []
    ∧ search_flights store total_flights q = Except.ok [] := by
  have he : ∀ (qy : String) (k : Nat), exact_search store qy k = Except.ok [] := by
    intro qy k
    simp [exact_search, hstore, Except.map]
  have hs : ∀ (qy : String) (k : Nat) (m : Option ℚ),
      similarity_search store qy k m = Except.ok [] := by
    intro qy k m
    simp [similarity_search, hstore, Except.map]
  have hh : ∀ (qy : String) (k : Nat), hybrid_search store qy k = Except.ok [] := by
    intro qy k
    simp [hybrid_search, hstore, Except.map, sortDescBySim]
  refine ⟨he query n, hs query n md, hh query n, ?_⟩
  unfold search_flights routeSearch
  cases determine_search_strategy q.query (analyze_query_complexity q.query) <;>
    simp [he, hs, hh, Except.map]

/-- C9 witness: the four equalities at a concrete empty store and
concrete queries. -/
theorem C9_witness :
    exact_search (fun _ _ => Except.ok []) "AA123" 5 = Except.ok []
    ∧ similarity_search (fun _ _ => Except.ok []) "AA123" 5 (some 0.5) = Except.ok []
    ∧ hybrid_search (fun _ _ => Except.ok []) "AA123" 5 = Except.ok []
    ∧ search_flights (fun _ _ => Except.ok []) 50
        { query := "cheap flights to miami under $300" } = Except.ok [] :=
  C9_empty_store (fun _ _ => Except.ok []) (fun _ _ => rfl) "AA123" 5 (some 0.5) 50
    { query := "cheap flights to miami under $300" }

theorem except_map_eq_ok {α β : Type} (f : α → β) (e : Except String α) (b : β)
    (h : e.map f = Except.ok b) : ∃ a, e = Except.ok a ∧ b = f a := by
  cases e with
  | error s => simp [Except.map] at h
  | ok a =>
    refine ⟨a, rfl, ?_⟩
    simpa [Except.map] using h.symm

/-- C3: every result the search endpoint returns carries
similarity_score equal to 1 minus its distance, on every strategy path:
the enhancement loop recomputes the score from the distance, so the
hybrid score influences only ranking and truncation inside the hybrid
path and never survives into the returned results. -/
theorem C3_similarity_score (store : Store) (total_flights : Nat) (q : SearchQueryIn)
    (results : List SearchResult) (r : SearchResult)
    (hok : search_flights store total_flights q = Except.ok results)
    (hr : r ∈ results) :
    r.similarity_score = 1 - r.distance := by
  unfold search_flights at hok
  obtain ⟨raw, -, hres⟩ := except_map_eq_ok _ _ _ hok
  subst hres
  obtain ⟨r₀, -, hfr⟩ := List.mem_map.mp hr
  rw [← hfr]
  simp [finalizeResult]

theorem matchTypeFromFactors_cases (fs : List String) :
    matchTypeFromFactors fs = "multi-factor" ∨ matchTypeFromFactors fs = "exact"
    ∨ matchTypeFromFactors fs = "semantic" := by
  unfold matchTypeFromFactors
  split
  · exact Or.inl rfl
  · split
    · exact Or.inr (Or.inl rfl)
    · exact Or.inr (Or.inr rfl)

/-- C10: every returned result's match_type is recomputed by the
relevance analysis from its relevance factors (multi-factor when more
than two factors, else exact when some factor carries a field-match
marker, else semantic); in particular it is always one of those three
strings and the hybrid path tag never survives into the output. -/
theorem C10_match_type (store : Store) (total_flights : Nat) (q : SearchQueryIn)
    (results : List SearchResult) (r : SearchResult)
    (hok : search_flights store total_flights q = Except.ok results)
    (hr : r ∈ results) :
    r.match_type = matchTypeFromFactors r.relevance_factors
    ∧ (r.match_type = "multi-factor" ∨ r.match_type = "exact"
        ∨ r.match_type = "semantic")
    ∧ r.match_type ≠ "hybrid" := by
  unfold search_flights at hok
  obtain ⟨raw, -, hres⟩ := except_map_eq_ok _ _ _ hok
  subst hres
  obtain ⟨r₀, -, hfr⟩ := List.mem_map.mp hr
  have h1 : r.match_type = matchTypeFromFactors r.relevance_factors := by
    rw [← hfr]
    simp [finalizeResult, analyze_match_relevance]
  have h2 := matchTypeFromFactors_cases r.relevance_factors
  rw [← h1] at h2
  refine ⟨h1, h2, ?_⟩
  rcases h2 with h | h | h <;> rw [h] <;> decide

theorem searchC3_eval : search_flights storeC3 0 qC3 = Except.ok [resC3] := by
  have hstrat : determine_search_strategy qC3.query (analyze_query_complexity qC3.query)
      = SearchStrategy.SIMILARITY := by decide
  unfold search_flights
  rw [hstrat]
  have hn : effectiveN qC3 0 = 1 := rfl
  rw [hn]
  simp only [routeSearch]
  simp only [qC3, similarity_search, storeC3, Except.map]
  simp only [List.filter, List.map, candToSR, finalizeResult, analyze_match_relevance,
    relevanceFactors, matchTypeFromFactors, resC3, metaC3, optStr,
    show (1 : ℚ) - 0 = 1 by norm_num, show (1 : ℚ) > 0.8 by norm_num]
  simp only [Except.ok.injEq]
  decide

/-- C3 witness: a concrete one-candidate store on the similarity path,
whose returned result has similarity_score 1 minus its distance. -/
theorem C3_witness :
    search_flights storeC3 0 qC3 = Except.ok [resC3]
    ∧ resC3.similarity_score = 1 - resC3.distance :=
  ⟨searchC3_eval,
   C3_similarity_score storeC3 0 qC3 [resC3] resC3 searchC3_eval (by simp)⟩

theorem searchC10_eval : search_flights storeC10 0 qC10 = Except.ok [resC10] := by
  have hstrat : determine_search_strategy qC10.query (analyze_query_complexity qC10.query)
      = SearchStrategy.SIMILARITY := by decide
  unfold search_flights
  rw [hstrat]
  have hn : effectiveN qC10 0 = 1 := rfl
  rw [hn]
  simp only [routeSearch]
  simp only [qC10, similarity_search, storeC10, Except.map]
  simp only [List.filter, List.map, candToSR, finalizeResult, analyze_match_relevance,
    relevanceFactors, matchTypeFromFactors, resC10, metaC10, optStr,
    show (1 : ℚ) - 0 = 1 by norm_num, show (1 : ℚ) > 0.8 by norm_num]
  simp only [Except.ok.injEq]
  decide

/-- C10 witness: a concrete query matching airline, origin and
destination yields a result whose final match_type is multi-factor,
recomputed from its four relevance factors, and is not hybrid. -/
theorem C10_witness :
    search_flights storeC10 0 qC10 = Except.ok [resC10]
    ∧ resC10.match_type = matchTypeFromFactors resC10.relevance_factors
    ∧ resC10.match_type ≠ "hybrid" :=
  ⟨searchC10_eval,
   (C10_match_type storeC10 0 qC10 [resC10] resC10 searchC10_eval (by simp)).1,
   (C10_match_type storeC10 0 qC10 [resC10] resC10 searchC10_eval (by simp)).2.2⟩

end FlightRag
